import Mathlib

/-!
# Verification of the HTRModel adapter (src/network/model.py)

Shallow embedding of the `HTRModel` class: a thin Keras/TensorFlow adapter
that builds three computation graphs (train / predict / raw-predict) around a
user-supplied network, wires the CTC loss and CTC decoding as Lambda nodes,
and adapts generator-based training, prediction and loss evaluation.

Modelling conventions:
* Framework-owned computations (the network forward pass, `K.ctc_decode`,
  `load_weights`, `fit_generator`, `Model.summary`) are abstracted as function
  parameters: this layer only routes data to them, which is exactly what the
  claims are about.
* Python exceptions are modelled with `Except PyErr`: a Python call that
  raises becomes `Except.error e` for the corresponding `PyErr` constructor.
* Numeric tensor entries are modelled as `Int` (decoded token ids) and `ℚ`
  (log-probabilities / losses); `np.exp` is an abstract `ℚ → ℚ` parameter
  since only its placement, not its value, matters to the claims.
-/

/-- Python exception outcomes observable at this layer. -/
inductive PyErr where
  /-- `AttributeError`: a method was invoked on a model attribute that is `None`
  (an uncompiled adapter has `model_train = None` and `model_pred = None`). -/
  | attributeNone
  /-- `TypeError`: a required positional argument was missing at a call site
  (`self.compile()` with `compile(self, optimizer)` having no default). -/
  | typeErrorMissingArg
  /-- `UnboundLocalError`: a local variable was referenced before assignment
  (`loss_data` in `get_loss_on_batch` when the batch is skipped). -/
  | unboundLocal
  /-- A hypothetical, clearly worded "model not compiled" error.  The source
  never raises it; it exists so claims about it can be stated. -/
  | notCompiled
  /-- `StopIteration`: `next()` on an exhausted output generator. -/
  | stopIteration
  /-- An exception raised by the user generator mid-iteration and delivered
  through the enqueuer's output generator. -/
  | generatorRaised
  deriving DecidableEq, Repr

/-- Graph nodes.  `user i` stands for the i-th user-supplied input/output
layer; the remaining constructors are the nodes `compile` creates itself. -/
inductive IONode where
  | user (i : Nat)
  /-- `Input(name="labels", shape=[None])` -/
  | labels
  /-- `Input(name="input_length", shape=[1])` -/
  | input_length
  /-- `Input(name="label_length", shape=[1])` -/
  | label_length
  /-- output of the `Lambda(self.ctc_loss_lambda_func, ..., name="CTCloss")` layer -/
  | ctcLossOut
  /-- output of the `Lambda(self.ctc_complete_decoding_lambda_func, ..., name="CTCdecode")` layer -/
  | ctcDecodeOut
  /-- output of the `Lambda(self.raw_lambda_func, ..., name="CTCdecode")` layer -/
  | ctcRawOut
  deriving DecidableEq, Repr

/-- A compiled Keras `Model`: its ordered input and output node lists.
Weights are a name-indexed store, loaded into by `load_weights`. -/
structure KerasModel where
  inputs : List IONode
  outputs : List IONode
  weights : List (String × ℚ)
  deriving DecidableEq, Repr

/-- Optimizers are opaque to this layer (passed through to Keras). -/
structure Optimizer where
  name : String
  deriving DecidableEq, Repr

/-- The `HTRModel` object state.  `__init__` sets `model_train` and
`model_pred` to `None`; `model_raw_pred` is first assigned in `compile`
(before that the attribute does not exist on the Python object, which we
model as `none` as well: every access to it in the source is preceded by an
access to `model_pred`, so the distinction is never observable here). -/
structure HTRModel where
  model_train : Option KerasModel
  model_pred : Option KerasModel
  model_raw_pred : Option KerasModel
  inputs : List IONode
  outputs : List IONode
  greedy : Bool
  beam_width : Nat
  top_paths : Nat
  deriving DecidableEq, Repr

/-- A constructor argument that is either a single layer or a list of layers
(`__init__` normalizes a non-list into a singleton list). -/
inductive NodeArg where
  | single (n : IONode)
  | list (ns : List IONode)
  deriving DecidableEq, Repr

/-- `if not isinstance(x, list): x = [x]` -/
def NodeArg.normalize : NodeArg → List IONode
  | .single n => [n]
  | .list ns => ns

/-- `HTRModel.__init__(inputs, outputs, greedy=False, beam_width=100, top_paths=1)`. -/
def HTRModel.init (inputs outputs : NodeArg) (greedy : Bool := false)
    (beam_width : Nat := 100) (top_paths : Nat := 1) : HTRModel :=
  { model_train := none
    model_pred := none
    model_raw_pred := none
    inputs := inputs.normalize
    outputs := outputs.normalize
    greedy := greedy
    beam_width := beam_width
    top_paths := top_paths }

/-- `HTRModel.compile(self, optimizer)`: builds the three graphs.
`loss_out` consumes `outputs ++ [labels, input_length, label_length]`,
`out_decoded_dense` and `out_raw_dense` consume `outputs ++ [input_length]`;
the three `Model`s are then created over the corresponding input lists.
The optimizer is bound to each model by Keras; it does not change the graph
structure observable at this layer. -/
def HTRModel.compile (m : HTRModel) (optimizer : Optimizer) : HTRModel :=
  let _ := optimizer
  { m with
    model_train := some
      { inputs := m.inputs ++ [IONode.labels, IONode.input_length, IONode.label_length]
        outputs := [IONode.ctcLossOut]
        weights := [] }
    model_pred := some
      { inputs := m.inputs ++ [IONode.input_length]
        outputs := [IONode.ctcDecodeOut]
        weights := [] }
    model_raw_pred := some
      { inputs := m.inputs ++ [IONode.input_length]
        outputs := [IONode.ctcRawOut]
        weights := [] } }

/-- Python call semantics for `self.compile(...)`: `compile(self, optimizer)`
declares `optimizer` as a required positional argument with no default, so a
call that omits it raises `TypeError` before the body runs. -/
def HTRModel.compileCall (m : HTRModel) (optimizer : Option Optimizer) :
    Except PyErr HTRModel :=
  match optimizer with
  | none => Except.error PyErr.typeErrorMissingArg
  | some o => Except.ok (m.compile o)

/-- `load_weights(target, by_name=True)` is framework-owned; it is passed in
as `loadW`. `HTRModel.load_checkpoint(self, target)`:
```
if os.path.isfile(target):
    if self.model_train is None:
        self.compile()
    self.model_train.load_weights(target, by_name=True)
    self.model_pred.load_weights(target, by_name=True)
    self.model_raw_pred.load_weights(target, by_name=True)
```
`isfile` models `os.path.isfile`. -/
def HTRModel.load_checkpoint (isfile : String → Bool)
    (loadW : KerasModel → String → KerasModel) (m : HTRModel) (target : String) :
    Except PyErr HTRModel :=
  if isfile target then do
    let m ←
      if m.model_train = none then m.compileCall none
      else Except.ok m
    Except.ok
      { m with
        model_train := m.model_train.map (fun k => loadW k target)
        model_pred := m.model_pred.map (fun k => loadW k target)
        model_raw_pred := m.model_raw_pred.map (fun k => loadW k target) }
  else
    Except.ok m

/-- A training batch: `inputs = [x_features, y_label, x_len, y_len]`
(features as per-example matrices of rationals, labels as per-example integer
sequences, and the two length vectors). -/
structure Batch where
  x : List (List (List ℚ))
  y : List (List Int)
  x_len : List Nat
  y_len : List Nat
  deriving DecidableEq, Repr

/-- `HTRModel.get_loss_on_batch(self, inputs, verbose=0)`.  `trainPredict`
models `self.model_train.predict_on_batch([x, y, x_len, y_len])` (a Keras
forward pass returning the per-example CTC losses).
```
no_lab = True if 0 in y_len else False
if no_lab is False:
    loss_data = self.model_train.predict_on_batch([x, y, x_len, y_len])
return np.sum(loss_data), loss_data
```
When `no_lab` is true the local `loss_data` is never assigned and the
`return` line raises `UnboundLocalError`; when the adapter is uncompiled,
`self.model_train` is `None` and the forward pass raises `AttributeError`. -/
def HTRModel.get_loss_on_batch (trainPredict : KerasModel → Batch → List ℚ)
    (m : HTRModel) (inputs : Batch) : Except PyErr (ℚ × List ℚ) :=
  let no_lab : Bool := if 0 ∈ inputs.y_len then true else false
  if no_lab = false then
    match m.model_train with
    | none => Except.error PyErr.attributeNone
    | some mt =>
      let loss_data := trainPredict mt inputs
      Except.ok (loss_data.sum, loss_data)
  else
    Except.error PyErr.unboundLocal

/-- An inference batch `x = [features, input_length]`: a 3D feature tensor
`(batch, time, dim)` and the per-example input lengths. -/
structure PredBatch where
  features : List (List (List ℚ))
  input_length : List Nat
  deriving DecidableEq, Repr

/-- The value delivered by the predict graph, i.e. the result of
`K.ctc_decode` as assembled by `ctc_complete_decoding_lambda_func`:
`top_paths` decoded matrices (each `batch × max_len`, token ids with `-1`
padding, cast to float32 in the graph and back to ints by `int(p)`),
followed by the `batch × top_paths` log-probability matrix.  In Python this
is the heterogeneous list `out` with `out[:-1] = paths`, `out[-1] = logProbs`. -/
structure DecodeOut where
  paths : List (List (List Int))
  logProbs : List (List ℚ)
  deriving DecidableEq, Repr

/-- `[int(p) for p in pre if p != -1]`: strip the `-1` padding sentinel,
keeping the remaining token ids in order. -/
def stripPad (pre : List Int) : List Int :=
  pre.filter (fun p => decide (p ≠ -1))

/-- All level-1 rows of a nested `(paths × examples × tokens)` list have the
same length (numpy can stack the outer two axes into a rectangle). -/
def lvl1Regular (pred : List (List (List Int))) : Bool :=
  pred.all (fun row => row.length = (pred.headD []).length)

/-- All innermost token lists have the same length (numpy can stack all
three axes into a full 3D ndarray). -/
def lvl2Regular (pred : List (List (List Int))) : Bool :=
  pred.flatten.all (fun l => l.length = ((pred.headD []).headD []).length)

/-- Full-axis reversal of a rectangular `(P × B × L)` nested list:
`result[l][b][p] = pred[p][b][l]`.  This is `np.transpose` on a 3D ndarray
(with no `axes` argument numpy reverses the order of all axes). -/
def axisRev (pred : List (List (List Int))) : List (List (List Int)) :=
  let P := pred.length
  let B := (pred.headD []).length
  let L := ((pred.headD []).headD []).length
  (List.range L).map (fun l =>
    (List.range B).map (fun b =>
      (List.range P).map (fun p => ((pred.getD p []).getD b []).getD l 0)))

/-- `np.transpose(pred)` on the nested Python list built by
`predict_on_batch` (numpy ≤ 1.23 semantics, under which the source ran:
ragged nesting yields an object ndarray rather than an error).
* If the innermost lists all share one length (and the rows do too), numpy
  sees a 3D `(P, B, L)` ndarray and `transpose` reverses all three axes.
* Else if the rows share one length, numpy sees a 2D `(P, B)` object ndarray
  of lists and `transpose` swaps the two axes (matrix transpose).
* Else numpy sees a 1D `(P,)` object ndarray and `transpose` is the identity. -/
def npTransposeNested (pred : List (List (List Int))) : List (List (List Int)) :=
  if lvl1Regular pred then
    if lvl2Regular pred then axisRev pred
    else List.transpose pred
  else pred

/-- `HTRModel.predict_on_batch(self, x)`.  `predPredict` models
`self.model_pred.predict_on_batch(x)` (the framework-run predict graph,
whose output is the `DecodeOut` assembled by the CTCdecode Lambda) and
`exp` models the elementwise `np.exp`.
```
out = self.model_pred.predict_on_batch(x)
pred, prob = [], []
for x in range(len(out[:-1])):
    pred.append([[int(p) for p in pre if p != -1] for pre in out[x]])
for x in range(len(out[-1])):
    prob.append(np.exp(out[-1][x]))
pred = np.transpose(pred)
prob = np.asarray(prob)
return pred, prob
```
On an uncompiled adapter the first line,
`self.model_pred._make_predict_function()`, raises `AttributeError`. -/
def HTRModel.predict_on_batch (predPredict : KerasModel → PredBatch → DecodeOut)
    (exp : ℚ → ℚ) (m : HTRModel) (x : PredBatch) :
    Except PyErr (List (List (List Int)) × List (List ℚ)) :=
  match m.model_pred with
  | none => Except.error PyErr.attributeNone
  | some mp =>
    let out := predPredict mp x
    let pred := out.paths.map (fun mat => mat.map stripPad)
    let prob := out.logProbs.map (fun row => row.map exp)
    Except.ok (npTransposeNested pred, prob)

/-- The body of the `while steps_done < steps` loop of `predict_generator`,
over the sequence of values the enqueuer's output generator will deliver
(in submission order; `OrderedEnqueuer`/`GeneratorEnqueuer` preserve it
regardless of the `workers` count).  A queue entry `Except.error e` is a
batch whose production raised, re-raised by `next(output_generator)`; an
exhausted queue raises `StopIteration`.  `f` is the per-batch step: either
`self.model_raw_pred.predict_on_batch(x)` (raw path) or
`pred, _ = self.predict_on_batch(x)` (decode path), whose result extends
`allab_outs`.  Returns the loop outcome together with the number of queue
entries consumed. -/
def predictLoop {α : Type} (f : PredBatch → Except PyErr (List α)) :
    List (Except PyErr PredBatch) → Nat → Except PyErr (List α) × Nat
  | _, 0 => (Except.ok [], 0)
  | [], _ + 1 => (Except.error PyErr.stopIteration, 0)
  | q :: qs, s + 1 =>
    match q with
    | Except.error e => (Except.error e, 1)
    | Except.ok x =>
      match f x with
      | Except.error e => (Except.error e, 1)
      | Except.ok pred =>
        let r := predictLoop f qs s
        (r.1.map (fun rest => pred ++ rest), r.2 + 1)

/-- Observable outcome of one `predict_generator` call: the returned value
(or propagated exception), how many batches were consumed from the queue,
and whether the prefetch enqueuer was started / stopped. -/
structure PGResult (α : Type) where
  result : Except PyErr (List α)
  consumed : Nat
  enqueuerStarted : Bool
  enqueuerStopped : Bool
  deriving Repr

/-- `HTRModel.predict_generator(self, generator, steps, ...)`.
`queue` is the sequence of values the enqueuer will deliver and `f` the
per-batch step (see `predictLoop`).  Control flow from the source:
`self.model_pred._make_predict_function()` runs first (on an uncompiled
adapter it raises `AttributeError` before any enqueuer exists); then inside
`try`, the enqueuer is built and started and the loop runs; the `finally`
block converts the accumulated outputs with `np.asarray` (total on these
inputs under the numpy the source ran on) and stops the enqueuer whenever
it is not `None` — on the normal exit, on a generator exception and on any
other loop exception alike.  An exception reaches the caller after
`finally`; the accumulated partial outputs are discarded with it. -/
def HTRModel.predict_generator {α : Type} (f : PredBatch → Except PyErr (List α))
    (queue : List (Except PyErr PredBatch)) (m : HTRModel) (steps : Nat) :
    PGResult α :=
  match m.model_pred with
  | none =>
    { result := Except.error PyErr.attributeNone
      consumed := 0
      enqueuerStarted := false
      enqueuerStopped := false }
  | some _ =>
    let r := predictLoop f queue steps
    { result := r.1
      consumed := r.2
      enqueuerStarted := true
      enqueuerStopped := true }

/-- `HTRModel.fit_generator(self, generator, steps_per_epoch, ...)` simply
delegates to `self.model_train.fit_generator(...)`, abstracted as `fitG`
(closed over all the call's arguments).  On an uncompiled adapter
`self.model_train` is `None` and the attribute access raises
`AttributeError`. -/
def HTRModel.fit_generator {History : Type} (fitG : KerasModel → History)
    (m : HTRModel) : Except PyErr History :=
  match m.model_train with
  | none => Except.error PyErr.attributeNone
  | some mt => Except.ok (fitG mt)

/-- `HTRModel.summary(self, output=None, target=None)` prints (and
optionally writes) `self.model_train.summary()`, abstracted as `summ`.
On an uncompiled adapter `self.model_train` is `None` and the call raises
`AttributeError` (after the `os.makedirs`/`open` side effects when `target`
is given — the error kind is the same either way). -/
def HTRModel.summary {Text : Type} (summ : KerasModel → Text)
    (m : HTRModel) : Except PyErr Text :=
  match m.model_train with
  | none => Except.error PyErr.attributeNone
  | some mt => Except.ok (summ mt)

/-- `HTRModel.raw_lambda_func(args)`:
```
y_pred, input_length = args
return y_pred
```
The per-timestep network output is returned verbatim. -/
def raw_lambda_func (y_pred : List (List (List ℚ))) (input_length : List Nat) :
    List (List (List ℚ)) :=
  let _ := input_length
  y_pred

/-- Evaluation of the raw-predict graph on one batch:
`model_raw_pred` has inputs `self.inputs ++ [input_length]` and output the
raw Lambda applied to `self.outputs ++ [input_length]`, where the user
network `net` (from `self.inputs` to `self.outputs`) consumes only the
feature inputs.  So `model_raw_pred.predict_on_batch([features, il])`
evaluates `raw_lambda_func (net features) il`. -/
def rawPredictGraph (net : List (List (List ℚ)) → List (List (List ℚ)))
    (features : List (List (List ℚ))) (input_length : List Nat) :
    List (List (List ℚ)) :=
  raw_lambda_func (net features) input_length

/-- The per-batch step of the `raw_returns=True` branch of
`predict_generator`: `pred = self.model_raw_pred.predict_on_batch(x)`,
then `allab_outs.extend(pred)` (one list entry per example). -/
def rawStep (net : List (List (List ℚ)) → List (List (List ℚ))) :
    PredBatch → Except PyErr (List (List (List ℚ))) :=
  fun b => Except.ok (rawPredictGraph net b.features b.input_length)

/-- The auxiliary CTC inputs that `compile` introduces. -/
def isAuxInput : IONode → Bool
  | IONode.labels => true
  | IONode.input_length => true
  | IONode.label_length => true
  | _ => false

/-!
## Definitions written from the spec's words (for refinement comparisons)

The two definitions below follow the specification text, not the source;
they exist to be compared with the source-derived `HTRModel.predict_on_batch`.
-/

/-- The `probabilities` result as the spec words it: "for each example, the
exponentiated (natural-log-to-linear) score of its best/first decode path"
— exactly one value per example. -/
def specProbabilities (exp : ℚ → ℚ) (out : DecodeOut) : List ℚ :=
  out.logProbs.map (fun row => exp (row.headD 0))

/-- The `predictions` result as the spec words it: "for each of the
`top_paths` decode paths, for each example, the ordered sequence of integer
token ids with the padding sentinel (-1) removed; transposed so the outer
dimension indexes examples and inner indexes decode path". -/
def specPredictions (out : DecodeOut) : List (List (List Int)) :=
  List.transpose (out.paths.map (fun mat => mat.map stripPad))

/-!
## Concrete fixtures used by witnesses and counterexamples
-/

/-- A freshly constructed, uncompiled adapter. -/
def m0 : HTRModel :=
  HTRModel.init (NodeArg.single (IONode.user 0)) (NodeArg.single (IONode.user 1))

/-- The same adapter after `compile`. -/
def mC : HTRModel := m0.compile { name := "rmsprop" }

/-- The spec's own scenario batch: two examples, `label_lengths = [3, 0]`. -/
def batch30 : Batch :=
  { x := [[[1, 0]], [[0, 1]]]
    y := [[1, 2, 3], [-1, -1, -1]]
    x_len := [4, 4]
    y_len := [3, 0] }

/-- A stand-in for the Keras forward pass of the train graph. -/
def tpA : KerasModel → Batch → List ℚ := fun _ _ => [1, 2]

/-- A second, different stand-in forward pass (to witness that the result
does not depend on the train graph at all). -/
def tpB : KerasModel → Batch → List ℚ := fun _ _ => [5]

/-!
## Claims
-/

/-- C1: for every 4-tuple batch in which some entry of `label_lengths` is 0
(even when every other entry is nonzero), `get_loss_on_batch` skips the loss
computation entirely for the whole batch — the Train graph is never invoked
(the result does not depend on the train-graph forward pass, nor on the
adapter state at all) — and no loss value is returned: the `return` line
finds `loss_data` undefined (`UnboundLocalError`), the "empty/undefined
loss" outcome the spec documents. -/
theorem claim1_get_loss_skips_whole_batch
    (trainPredict trainPredict' : KerasModel → Batch → List ℚ)
    (m m' : HTRModel) (b : Batch) (h : 0 ∈ b.y_len) :
    HTRModel.get_loss_on_batch trainPredict m b = Except.error PyErr.unboundLocal ∧
    HTRModel.get_loss_on_batch trainPredict m b
      = HTRModel.get_loss_on_batch trainPredict' m' b := by
  unfold HTRModel.get_loss_on_batch
  simp [h]

/-- C1 witness: the spec's own scenario, `label_lengths = [3, 0]`. -/
theorem claim1_witness :
    (0 ∈ batch30.y_len) ∧
    (HTRModel.get_loss_on_batch tpA mC batch30 = Except.error PyErr.unboundLocal ∧
     HTRModel.get_loss_on_batch tpA mC batch30 = HTRModel.get_loss_on_batch tpB m0 batch30) :=
  ⟨by decide, claim1_get_loss_skips_whole_batch tpA tpB mC m0 batch30 (by decide)⟩

/-- C2 (code bug): `load_checkpoint` on an existing checkpoint path with an
uncompiled adapter reaches `self.compile()`, but `compile(self, optimizer)`
has no default for `optimizer`, so the call raises
`TypeError: compile() missing 1 required positional argument` instead of
auto-compiling and loading the weights.  The auto-compile branch
`if self.model_train is None: self.compile()` shows the intended behavior
the claim describes; the missing default makes that branch unexecutable. -/
theorem claim2_load_checkpoint_uncompiled_raises_typeError :
    m0.model_train = none ∧
    HTRModel.load_checkpoint (fun _ => true) (fun k _ => k) m0 "checkpoint_weights.hdf5"
      = Except.error PyErr.typeErrorMissingArg :=
  ⟨rfl, rfl⟩

/-- C6: `load_checkpoint` on a path that is not an existing file is a no-op:
the returned adapter state (all three graphs, their weights, and whether the
adapter is compiled) is exactly the input state, for every weight-loading
semantics and every adapter. -/
theorem claim6_load_checkpoint_missing_file_noop
    (isfile : String → Bool) (loadW : KerasModel → String → KerasModel)
    (m : HTRModel) (target : String) (h : isfile target = false) :
    HTRModel.load_checkpoint isfile loadW m target = Except.ok m := by
  unfold HTRModel.load_checkpoint
  simp [h]

/-- C6 witness: a concrete uncompiled adapter and a filesystem on which the
path does not exist. -/
theorem claim6_witness :
    ((fun _ : String => false) "missing.hdf5" = false) ∧
    HTRModel.load_checkpoint (fun _ => false) (fun k _ => k) m0 "missing.hdf5"
      = Except.ok m0 :=
  ⟨rfl, claim6_load_checkpoint_missing_file_noop (fun _ => false) (fun k _ => k) m0
    "missing.hdf5" rfl⟩

/-- C9: after every successful `compile`, the Train graph's inputs are the
network inputs followed by `labels`, `input_length`, `label_length`, while
the Predict and RawPredict graphs' inputs are the network inputs followed by
`input_length` only; removing the CTC auxiliary inputs from each graph's
input list leaves the same shared node set in all three graphs. -/
theorem claim9_compile_graph_input_sets (m : HTRModel) (opt : Optimizer) :
    ((m.compile opt).model_train.map KerasModel.inputs
      = some (m.inputs ++ [IONode.labels, IONode.input_length, IONode.label_length])) ∧
    ((m.compile opt).model_pred.map KerasModel.inputs
      = some (m.inputs ++ [IONode.input_length])) ∧
    ((m.compile opt).model_raw_pred.map KerasModel.inputs
      = some (m.inputs ++ [IONode.input_length])) ∧
    ((m.compile opt).model_train.map (fun k => k.inputs.filter (fun n => !isAuxInput n))
      = (m.compile opt).model_pred.map (fun k => k.inputs.filter (fun n => !isAuxInput n))) ∧
    ((m.compile opt).model_pred.map (fun k => k.inputs.filter (fun n => !isAuxInput n))
      = (m.compile opt).model_raw_pred.map (fun k => k.inputs.filter (fun n => !isAuxInput n))) := by
  refine ⟨rfl, rfl, rfl, ?_, rfl⟩
  simp [HTRModel.compile, List.filter_append, isAuxInput]

/-- Helper: with a per-batch step that never raises and enough `ok` batches
queued, the loop returns the flattened per-batch outputs of the first
`steps` batches in order and consumes exactly `steps` queue entries. -/
theorem predictLoop_all_ok {α : Type} (g : PredBatch → List α)
    (bs : List PredBatch) (rest : List (Except PyErr PredBatch)) :
    ∀ steps : Nat, steps ≤ bs.length →
    predictLoop (fun b => Except.ok (g b)) (bs.map Except.ok ++ rest) steps
      = (Except.ok (((bs.take steps).map g).flatten), steps) := by
  induction bs with
  | nil =>
    intro steps h
    have : steps = 0 := Nat.le_zero.mp h
    subst this
    simp [predictLoop]
  | cons b bs' ih =>
    intro steps h
    cases steps with
    | zero => simp [predictLoop]
    | succ s =>
      simp only [List.map_cons, List.cons_append, predictLoop, List.append_eq]
      rw [ih s (Nat.le_of_succ_le_succ h)]
      simp [List.take_succ_cons, List.flatten_cons, Except.map]

/-- Helper: projecting the features back out of a `zipWith PredBatch.mk`. -/
theorem zipWith_mk_map_features {β : Type}
    (net : List (List (List ℚ)) → β)
    (fs : List (List (List (List ℚ)))) :
    ∀ ils : List (List Nat), fs.length ≤ ils.length →
    (List.zipWith PredBatch.mk fs ils).map (fun b => net b.features) = fs.map net := by
  induction fs with
  | nil => intro ils _; rfl
  | cons f fs' ih =>
    intro ils h
    cases ils with
    | nil => simp at h
    | cons il ils' =>
      simp only [List.zipWith, List.map]
      rw [ih ils' (by simpa using h)]

/-- C10: the raw-predict path ignores `input_length`: the raw graph's lambda
returns the network's per-timestep output verbatim, so its value is
independent of the `input_length` input, and `predict_generator` with
`raw_returns=True` over two queues that agree on features but differ
arbitrarily in their `input_length` vectors returns identical output. -/
theorem claim10_raw_path_ignores_input_length
    (net : List (List (List ℚ)) → List (List (List ℚ)))
    (features : List (List (List ℚ))) (il il' : List Nat)
    (fs : List (List (List (List ℚ)))) (ils ils' : List (List Nat))
    (m : HTRModel) (steps : Nat)
    (h1 : ils.length = fs.length) (h2 : ils'.length = fs.length)
    (hs : steps ≤ fs.length) :
    rawPredictGraph net features il = net features ∧
    rawPredictGraph net features il = rawPredictGraph net features il' ∧
    HTRModel.predict_generator (rawStep net)
        ((List.zipWith PredBatch.mk fs ils).map Except.ok) m steps
      = HTRModel.predict_generator (rawStep net)
        ((List.zipWith PredBatch.mk fs ils').map Except.ok) m steps := by
  refine ⟨rfl, rfl, ?_⟩
  have loopEq : ∀ ils'' : List (List Nat), ils''.length = fs.length →
      predictLoop (rawStep net) ((List.zipWith PredBatch.mk fs ils'').map Except.ok) steps
        = (Except.ok (((fs.map net).take steps).flatten), steps) := by
    intro ils'' hlen
    have hbs : steps ≤ (List.zipWith PredBatch.mk fs ils'').length := by
      rw [List.length_zipWith, hlen, Nat.min_self]
      exact hs
    have h0 := predictLoop_all_ok (fun b => net b.features)
      (List.zipWith PredBatch.mk fs ils'') [] steps hbs
    rw [List.append_nil] at h0
    have hstep : rawStep net = (fun b => Except.ok (net b.features)) := rfl
    rw [hstep, h0]
    rw [List.map_take, zipWith_mk_map_features net fs ils'' (le_of_eq hlen.symm), ← List.map_take]
  cases hm : m.model_pred with
  | none => simp [HTRModel.predict_generator, hm]
  | some mp =>
    simp only [HTRModel.predict_generator, hm]
    rw [loopEq ils h1, loopEq ils' h2]

/-- C10 witness: a two-batch queue with two different `input_length`
assignments. -/
theorem claim10_witness :
    (([[1], [2]] : List (List Nat)).length
        = ([[[[1]]], [[[2]]]] : List (List (List (List ℚ)))).length ∧
     ([[9], [9, 9]] : List (List Nat)).length
        = ([[[[1]]], [[[2]]]] : List (List (List (List ℚ)))).length) ∧
    (rawPredictGraph (fun fs => fs) [[[5]]] [7] = (fun fs => fs) [[[5]]] ∧
     rawPredictGraph (fun fs => fs) [[[5]]] [7] = rawPredictGraph (fun fs => fs) [[[5]]] [8] ∧
     HTRModel.predict_generator (rawStep (fun fs => fs))
        ((List.zipWith PredBatch.mk [[[[1]]], [[[2]]]] [[1], [2]]).map Except.ok) mC 2
      = HTRModel.predict_generator (rawStep (fun fs => fs))
        ((List.zipWith PredBatch.mk [[[[1]]], [[[2]]]] [[9], [9, 9]]).map Except.ok) mC 2) :=
  ⟨⟨rfl, rfl⟩,
    claim10_raw_path_ignores_input_length (fun fs => fs) [[[5]]] [7] [8]
      [[[[1]]], [[[2]]]] [[1], [2]] [[9], [9, 9]] mC 2 rfl rfl (by decide)⟩

/-- The predict graph of `mC`, as `compile` builds it. -/
def mpC : KerasModel :=
  { inputs := [IONode.user 0, IONode.input_length]
    outputs := [IONode.ctcDecodeOut]
    weights := [] }

/-- C3 counterexample: on a freshly constructed (uncompiled) adapter, every
operation other than `load_checkpoint` fails with
`AttributeError: 'NoneType' object has no attribute ...` — a deep internal
fault — and not with the clear "model not compiled" error the claim
requires. -/
theorem claim3_counterexample :
    HTRModel.fit_generator (fun _ => (0 : Nat)) m0 = Except.error PyErr.attributeNone ∧
    HTRModel.summary (fun _ => "") m0 = Except.error PyErr.attributeNone ∧
    HTRModel.predict_on_batch (fun _ _ => { paths := [], logProbs := [] }) id m0
        { features := [], input_length := [] } = Except.error PyErr.attributeNone ∧
    (HTRModel.predict_generator (fun _ => Except.ok ([] : List Nat)) [] m0 1).result
      = Except.error PyErr.attributeNone ∧
    HTRModel.get_loss_on_batch tpA m0 { x := [], y := [[1]], x_len := [1], y_len := [1] }
      = Except.error PyErr.attributeNone ∧
    PyErr.attributeNone ≠ PyErr.notCompiled :=
  ⟨rfl, rfl, rfl, rfl, rfl, by decide⟩

/-- C3 (amended): on an uncompiled adapter, `fit_generator`, `summary`,
`predict_on_batch`, `predict_generator` and `get_loss_on_batch` (on a batch
with no zero label length) all fail with `AttributeError` from invoking a
method on the `None` model attribute, and `get_loss_on_batch` on a batch
with a zero label length fails with `UnboundLocalError` — deep internal
faults, not a clear "model not compiled" error. -/
theorem claim3_uncompiled_ops_fail_with_internal_faults
    {History Text : Type} (fitG : KerasModel → History) (summ : KerasModel → Text)
    (predPredict : KerasModel → PredBatch → DecodeOut) (exp : ℚ → ℚ)
    (trainPredict : KerasModel → Batch → List ℚ)
    (f : PredBatch → Except PyErr (List Nat))
    (queue : List (Except PyErr PredBatch)) (steps : Nat)
    (m : HTRModel) (hT : m.model_train = none) (hP : m.model_pred = none)
    (x : PredBatch) (b b' : Batch) (hb : 0 ∉ b.y_len) (hb' : 0 ∈ b'.y_len) :
    HTRModel.fit_generator fitG m = Except.error PyErr.attributeNone ∧
    HTRModel.summary summ m = Except.error PyErr.attributeNone ∧
    HTRModel.predict_on_batch predPredict exp m x = Except.error PyErr.attributeNone ∧
    (HTRModel.predict_generator f queue m steps).result = Except.error PyErr.attributeNone ∧
    HTRModel.get_loss_on_batch trainPredict m b = Except.error PyErr.attributeNone ∧
    HTRModel.get_loss_on_batch trainPredict m b' = Except.error PyErr.unboundLocal ∧
    PyErr.attributeNone ≠ PyErr.notCompiled ∧
    PyErr.unboundLocal ≠ PyErr.notCompiled := by
  refine ⟨?_, ?_, ?_, ?_, ?_, ?_, by decide, by decide⟩ <;>
    simp [HTRModel.fit_generator, HTRModel.summary, HTRModel.predict_on_batch,
      HTRModel.predict_generator, HTRModel.get_loss_on_batch, hT, hP, hb, hb']

/-- C3 witness: the uncompiled adapter `m0`, a batch with no zero label
length and one with a zero label length. -/
theorem claim3_witness :
    (m0.model_train = none ∧ m0.model_pred = none ∧
     0 ∉ Batch.y_len { x := [], y := [[1]], x_len := [1], y_len := [1] } ∧
     0 ∈ batch30.y_len) ∧
    (HTRModel.fit_generator (fun _ => (1 : Nat)) m0 = Except.error PyErr.attributeNone ∧
     HTRModel.summary (fun _ => "s") m0 = Except.error PyErr.attributeNone ∧
     HTRModel.predict_on_batch (fun _ _ => { paths := [], logProbs := [] }) id m0
        { features := [], input_length := [] } = Except.error PyErr.attributeNone ∧
     (HTRModel.predict_generator (fun _ => Except.ok ([] : List Nat)) [] m0 2).result
        = Except.error PyErr.attributeNone ∧
     HTRModel.get_loss_on_batch tpA m0 { x := [], y := [[1]], x_len := [1], y_len := [1] }
        = Except.error PyErr.attributeNone ∧
     HTRModel.get_loss_on_batch tpA m0 batch30 = Except.error PyErr.unboundLocal ∧
     PyErr.attributeNone ≠ PyErr.notCompiled ∧
     PyErr.unboundLocal ≠ PyErr.notCompiled) :=
  ⟨⟨rfl, rfl, by decide, by decide⟩,
    claim3_uncompiled_ops_fail_with_internal_faults (fun _ => (1 : Nat)) (fun _ => "s")
      (fun _ _ => { paths := [], logProbs := [] }) id tpA
      (fun _ => Except.ok ([] : List Nat)) [] 2 m0 rfl rfl
      { features := [], input_length := [] }
      { x := [], y := [[1]], x_len := [1], y_len := [1] } batch30
      (by decide) (by decide)⟩

/-- C4 counterexample: with `top_paths = 2` the decode primitive emits two
log-probabilities per example; `predict_on_batch` exponentiates the whole
row, so `probabilities` holds two values for the (single) example — not
"exactly one value per example: ... of its best/first decode path" as the
claim states (the spec-worded `specProbabilities` would give `[0]`). -/
theorem claim4_counterexample :
    HTRModel.predict_on_batch
        (fun _ _ => { paths := [[[7, -1]]], logProbs := [[0, -1]] }) id mC
        { features := [[[1]]], input_length := [2] }
      = Except.ok ([[[7]]], [[(0 : ℚ), -1]]) ∧
    specProbabilities id { paths := [[[7, -1]]], logProbs := [[(0 : ℚ), -1]] } = [(0 : ℚ)] ∧
    ([[(0 : ℚ), -1]] : List (List ℚ)).map List.length ≠ [1] :=
  ⟨rfl, rfl, by decide⟩

/-- C4 (amended): for every batch, `predict_on_batch` returns as
probabilities, for each example, the elementwise exponential of that
example's full row of `top_paths` log-probabilities emitted by the decode
primitive (the first entry being the best/first path's value); this
collapses to the spec's one-value-per-example form exactly when every row
has a single entry, i.e. when `top_paths = 1`. -/
theorem claim4_probabilities_exponentiate_full_row
    (predPredict : KerasModel → PredBatch → DecodeOut) (exp : ℚ → ℚ)
    (m : HTRModel) (mp : KerasModel) (h : m.model_pred = some mp) (x : PredBatch) :
    (∃ pred, HTRModel.predict_on_batch predPredict exp m x
        = Except.ok (pred, (predPredict mp x).logProbs.map (fun row => row.map exp))) ∧
    ((predPredict mp x).logProbs.all (fun row => row.length = 1) = true →
      (predPredict mp x).logProbs.map (fun row => row.map exp)
        = (specProbabilities exp (predPredict mp x)).map (fun q => [q])) := by
  constructor
  · refine ⟨npTransposeNested ((predPredict mp x).paths.map (fun mat => mat.map stripPad)), ?_⟩
    simp [HTRModel.predict_on_batch, h]
  · intro hall
    unfold specProbabilities
    rw [List.map_map]
    refine List.map_congr_left ?_
    intro row hrow
    have h1 : row.length = 1 := by simpa using List.all_eq_true.mp hall row hrow
    obtain ⟨a, ha⟩ := List.length_eq_one.mp h1
    subst ha
    simp

/-- C4 witness: a compiled adapter with a `top_paths = 1` shaped decode
output, on which both conjuncts are concrete. -/
theorem claim4_witness :
    (mC.model_pred = some mpC) ∧
    ((∃ pred, HTRModel.predict_on_batch
          (fun _ _ => { paths := [[[2, -1]]], logProbs := [[3]] }) id mC
          { features := [[[1]]], input_length := [2] }
        = Except.ok (pred, ([[3]] : List (List ℚ)).map (fun row => row.map id))) ∧
     (([[3]] : List (List ℚ)).all (fun row => row.length = 1) = true →
       ([[3]] : List (List ℚ)).map (fun row => row.map id)
         = (specProbabilities id { paths := [[[2, -1]]], logProbs := [[3]] }).map
             (fun q => [q]))) :=
  ⟨rfl, claim4_probabilities_exponentiate_full_row
    (fun _ _ => { paths := [[[2, -1]]], logProbs := [[3]] }) id mC mpC rfl
    { features := [[[1]]], input_length := [2] }⟩

/-- C5 counterexample: when every stripped sequence has the same length
(here two examples both stripping to length 2), numpy sees a regular 3D
array and `np.transpose` reverses all three axes: the code returns
`[[[2],[3]],[[5],[4]]]` (outer dimension = token position), not the
spec-worded examples-by-paths transpose `[[[2,5]],[[3,4]]]`. -/
theorem claim5_counterexample :
    HTRModel.predict_on_batch
        (fun _ _ => { paths := [[[2, 5, -1], [3, 4, -1]]], logProbs := [[0], [0]] }) id mC
        { features := [[[1]], [[1]]], input_length := [3, 3] }
      = Except.ok ([[[2], [3]], [[5], [4]]], [[(0 : ℚ)], [0]]) ∧
    specPredictions { paths := [[[2, 5, -1], [3, 4, -1]]], logProbs := [[(0 : ℚ)], [0]] }
      = [[[2, 5]], [[3, 4]]] ∧
    ([[[2], [3]], [[5], [4]]] : List (List (List Int))) ≠ [[[2, 5]], [[3, 4]]] :=
  ⟨rfl, by decide, by decide⟩

/-- C5 (amended): provided the decode paths all have the same number of
example rows and the stripped sequences do **not** all share one common
length (numpy then forms a 2D object array), `predict_on_batch` returns the
predictions the claim describes: for each path and example the ordered token
ids with every `-1` removed and order preserved, transposed so the outer
dimension indexes examples and the inner indexes decode paths (so the
spec's scenario `[[2,5,-1,-1],[1,-1,-1,-1]]` yields `[[[2,5]],[[1]]]`).
When all stripped sequences share one length, `np.transpose` instead
reverses all three axes — see the counterexample. -/
theorem claim5_predictions_strip_and_transpose
    (predPredict : KerasModel → PredBatch → DecodeOut) (exp : ℚ → ℚ)
    (m : HTRModel) (mp : KerasModel) (h : m.model_pred = some mp) (x : PredBatch)
    (hreg : lvl1Regular ((predPredict mp x).paths.map (fun mat => mat.map stripPad)) = true)
    (hrag : lvl2Regular ((predPredict mp x).paths.map (fun mat => mat.map stripPad)) = false) :
    HTRModel.predict_on_batch predPredict exp m x
      = Except.ok (specPredictions (predPredict mp x),
          (predPredict mp x).logProbs.map (fun row => row.map exp)) := by
  simp [HTRModel.predict_on_batch, h, npTransposeNested, hreg, hrag, specPredictions]

/-- C5 witness: the spec's own scenario, decode output
`[[2,5,-1,-1],[1,-1,-1,-1]]`. -/
theorem claim5_witness :
    (mC.model_pred = some mpC ∧
     lvl1Regular (([[[2, 5, -1, -1], [1, -1, -1, -1]]] : List (List (List Int))).map
        (fun mat => mat.map stripPad)) = true ∧
     lvl2Regular (([[[2, 5, -1, -1], [1, -1, -1, -1]]] : List (List (List Int))).map
        (fun mat => mat.map stripPad)) = false) ∧
    HTRModel.predict_on_batch
        (fun _ _ => { paths := [[[2, 5, -1, -1], [1, -1, -1, -1]]], logProbs := [[0], [0]] })
        id mC { features := [[[1]], [[1]]], input_length := [4, 4] }
      = Except.ok
          (specPredictions
            { paths := [[[2, 5, -1, -1], [1, -1, -1, -1]]], logProbs := [[(0 : ℚ)], [0]] },
           ([[0], [0]] : List (List ℚ)).map (fun row => row.map id)) :=
  ⟨⟨rfl, by decide, by decide⟩,
    claim5_predictions_strip_and_transpose
      (fun _ _ => { paths := [[[2, 5, -1, -1], [1, -1, -1, -1]]], logProbs := [[0], [0]] })
      id mC mpC rfl { features := [[[1]], [[1]]], input_length := [4, 4] }
      (by decide) (by decide)⟩

/-- C7: in every run of `predict_generator`, once the prefetch enqueuer has
been started it is stopped on every exit path — normal completion, a
generator exception delivered mid-iteration, an exhausted queue, or a
per-batch predict error — because the `finally` block always runs
`enqueuer.stop()` when the enqueuer exists. -/
theorem claim7_enqueuer_always_stopped {α : Type}
    (f : PredBatch → Except PyErr (List α)) (queue : List (Except PyErr PredBatch))
    (m : HTRModel) (steps : Nat)
    (h : (HTRModel.predict_generator f queue m steps).enqueuerStarted = true) :
    (HTRModel.predict_generator f queue m steps).enqueuerStopped = true := by
  revert h
  cases hm : m.model_pred <;> simp [HTRModel.predict_generator, hm]

/-- C7 witness: a run in which the generator raises mid-iteration (the
second queue entry is an exception): the enqueuer is started and stopped. -/
theorem claim7_witness :
    (HTRModel.predict_generator (fun b => Except.ok [b.input_length])
        [Except.ok { features := [[[1]]], input_length := [2] },
         Except.error PyErr.generatorRaised] mC 3).enqueuerStarted = true ∧
    (HTRModel.predict_generator (fun b => Except.ok [b.input_length])
        [Except.ok { features := [[[1]]], input_length := [2] },
         Except.error PyErr.generatorRaised] mC 3).enqueuerStopped = true :=
  ⟨by decide,
    claim7_enqueuer_always_stopped (fun b => Except.ok [b.input_length])
      [Except.ok { features := [[[1]]], input_length := [2] },
       Except.error PyErr.generatorRaised] mC 3 (by decide)⟩

/-- C8: for `steps = N` over a compiled adapter, with a deterministic
per-batch step that never raises and at least `N` successfully produced
batches waiting in the prefetch queue (the `OrderedEnqueuer` /
`GeneratorEnqueuer` delivers them in submission order regardless of the
`workers` count, which this queue models), a normal run of
`predict_generator` consumes exactly `N` entries from the queue and returns
exactly the outputs of those `N` batches, concatenated in submission
order. -/
theorem claim8_consumes_exactly_steps_in_order {α : Type} (g : PredBatch → List α)
    (bs : List PredBatch) (rest : List (Except PyErr PredBatch))
    (m : HTRModel) (mp : KerasModel) (hm : m.model_pred = some mp)
    (steps : Nat) (hlen : steps ≤ bs.length) :
    HTRModel.predict_generator (fun b => Except.ok (g b)) (bs.map Except.ok ++ rest) m steps
      = { result := Except.ok (((bs.take steps).map g).flatten)
          consumed := steps
          enqueuerStarted := true
          enqueuerStopped := true } := by
  simp [HTRModel.predict_generator, hm, predictLoop_all_ok g bs rest steps hlen]

/-- C8 witness: two queued batches, `steps = 2`: both outputs, in order,
and exactly two entries consumed. -/
theorem claim8_witness :
    (mC.model_pred = some mpC ∧ 2 ≤ ([{ features := [[[1]]], input_length := [2] },
        { features := [[[3]]], input_length := [4] }] : List PredBatch).length) ∧
    HTRModel.predict_generator (fun b => Except.ok b.input_length)
        (([{ features := [[[1]]], input_length := [2] },
            { features := [[[3]]], input_length := [4] }] : List PredBatch).map Except.ok ++ [])
        mC 2
      = { result := Except.ok ((([{ features := [[[1]]], input_length := [2] },
              { features := [[[3]]], input_length := [4] }] : List PredBatch).take 2).map
              (fun b => b.input_length)).flatten
          consumed := 2
          enqueuerStarted := true
          enqueuerStopped := true } :=
  ⟨⟨rfl, by decide⟩,
    claim8_consumes_exactly_steps_in_order (fun b => b.input_length)
      [{ features := [[[1]]], input_length := [2] },
       { features := [[[3]]], input_length := [4] }] [] mC mpC rfl 2 (by decide)⟩
